import Mathlib

/-!
Verification of the quizio-backend game views (`ai_quiz/views/games.py`)
against its natural-language specification.

The Django views are shallowly embedded as pure Lean functions over an
explicit database state `Db`.  The external AI question service
(`ai_quiz/ai.py`, not part of the provided sources) is an abstract
environment `AI` of pure functions; model methods that live in
`ai_quiz/models.py` (also not provided) are modelled from the spec and
marked as such in their doc comments.  Python falsiness of the request
strings is modelled as the empty string (and `0` for the numeric
`gameId`); Django's `aget`/`get` either finds a unique row, raises
`DoesNotExist`, or raises `MultipleObjectsReturned`.
-/

namespace Quizio

/-- A `Participant` row: a joined player of a room with a readiness status. -/
structure Participant where
  roomId : Nat
  status : String
deriving Repr, DecidableEq

/-- A `Room` row: identified by a short `room_code`, owned by a `host` user. -/
structure Room where
  id : Nat
  room_code : String
  status : String
  host : Nat
deriving Repr, DecidableEq

/-- A `Game` row: one quiz round attached to a room, with a lifecycle status. -/
structure Game where
  id : Nat
  roomId : Nat
  status : String
deriving Repr, DecidableEq

/-- A `Question` row as created by `CreateGameView._fetch_and_create_questions`. -/
structure Question where
  gameId : Nat
  subtopic : String
  question : String
  correct_answer : String
  options : List String
  topicName : String
deriving Repr, DecidableEq

/-- A `Topic` row: a name together with its accumulated subtopics. -/
structure Topic where
  name : String
  subtopics : List String
deriving Repr, DecidableEq

/-- The database state the game views read and write.  `leaderboards`
records the game ids for which a leaderboard row has been created;
`nextGameId` is the autoincrement counter for `Game` rows. -/
structure Db where
  rooms : List Room
  games : List Game
  participants : List Participant
  questions : List Question
  topics : List Topic
  leaderboards : List Nat
  nextGameId : Nat
deriving Repr, DecidableEq

/-- One question as returned by the external `generate_questions` service. -/
structure GeneratedQuestion where
  subtopic : String
  question : String
  answer : String
  options : List String
deriving Repr, DecidableEq

/-- Response shape of the external `generate_subtopics` service. -/
structure SubtopicsResponse where
  subtopics : List String
deriving Repr, DecidableEq

/-- Response shape of the external `generate_questions` service. -/
structure QuestionsResponse where
  questions : List GeneratedQuestion
deriving Repr, DecidableEq

/-- Modelled from the spec: the external AI service of `ai_quiz/ai.py`,
which is not among the provided sources ("an AI service generates
topic-based questions"); both calls are abstract pure functions of their
arguments. -/
structure AI where
  generate_subtopics : String → SubtopicsResponse
  generate_questions : String → List String → Nat → String → QuestionsResponse

/-- Body of an HTTP response produced by the game views. -/
inductive RespBody where
  | gameId (id : Nat)
  | errorMsg (msg : String)
  | gameEnded
deriving Repr, DecidableEq

/-- Outcome of a view invocation: an HTTP response, or an uncaught Python
exception (which Django would surface as a 500). -/
inductive HttpOutcome where
  | resp (status : Nat) (body : RespBody)
  | pyError (name : String)
deriving Repr, DecidableEq

/-- A Python coroutine object that was built but never awaited; the wrapped
computation never runs and the object supports no attribute access. -/
structure Coroutine (α : Type) where
  delayed : α
deriving Repr, DecidableEq

/-- Embedding of `Room.objects.aget(room_code=room_code, status="active")`:
a unique active row, `DoesNotExist` (`.ok none` once caught below), or an
uncaught `MultipleObjectsReturned`. -/
def roomAgetActive (db : Db) (code : String) : Except String (Option Room) :=
  match db.rooms.filter (fun r => r.room_code == code && r.status == "active") with
  | [] => .ok none
  | [r] => .ok (some r)
  | _ :: _ :: _ => .error "MultipleObjectsReturned"

/-- Embedding of `Room.objects.get(room_code=room_code)` as used by `StartGameView` and
`EndGameView`: no status filter. -/
def roomGet (db : Db) (code : String) : Except String (Option Room) :=
  match db.rooms.filter (fun r => r.room_code == code) with
  | [] => .ok none
  | [r] => .ok (some r)
  | _ :: _ :: _ => .error "MultipleObjectsReturned"

/-- The database lookup `Game.objects.aget(room=room, status="in_progress")`
would perform if it were ever run. -/
def gameAgetInProgress (db : Db) (room : Room) : Except String (Option Game) :=
  match db.games.filter (fun g => g.roomId == room.id && g.status == "in_progress") with
  | [] => .ok none
  | [g] => .ok (some g)
  | _ :: _ :: _ => .error "MultipleObjectsReturned"

/-- Embedding of `CreateGameView.validate_room`: catches `Room.DoesNotExist` and returns
`None`; `MultipleObjectsReturned` would propagate. -/
def validate_room (db : Db) (code : String) : Except String (Option Room) :=
  match roomAgetActive db code with
  | .error e => .error e
  | .ok none => .ok none
  | .ok (some r) => .ok (some r)

/-- Embedding of `CreateGameView.validate_game`: the body assigns
`game = Game.objects.aget(room=room, status="in_progress")` WITHOUT awaiting
it, so `game` is the freshly built coroutine object.  Building a coroutine
raises nothing, hence the `except Game.DoesNotExist: return None` branch is
unreachable and the function always returns the (non-None) coroutine. -/
def validate_game (db : Db) (room : Room) : Option (Coroutine (Except String (Option Game))) :=
  some ⟨gameAgetInProgress db room⟩

/-- Embedding of `CreateGameView._get_or_create_topic`: get-or-create the `Topic` row by
name, then overwrite its subtopics with
`list(set(subtopics)) + list(set(topic.subtopics))` and save.
`list(set(...))` is modelled as `List.eraseDups` (deduplication; Python's
set iteration order is implementation-defined). -/
def get_or_create_topic (db : Db) (name : String) (subtopics : List String) :
    String × Db :=
  match db.topics.find? (fun t => t.name == name) with
  | some t =>
      let t' : Topic := { t with subtopics := subtopics.eraseDups ++ t.subtopics.eraseDups }
      (name, { db with topics := db.topics.map (fun u => if u.name == name then t' else u) })
  | none =>
      let t' : Topic := { name := name, subtopics := subtopics.eraseDups }
      (name, { db with topics := db.topics ++ [t'] })

/-- The row built for one generated question inside the
`Question.objects.abulk_create` list comprehension. -/
def mkQuestionRow (gid : Nat) (tname : String) (q : GeneratedQuestion) : Question :=
  { gameId := gid, subtopic := q.subtopic, question := q.question,
    correct_answer := q.answer, options := q.options, topicName := tname }

/-- The list comprehension of `_fetch_and_create_questions`: for each
generated question build a `Question` row, calling `_get_or_create_topic`
once per question (threading the database through each call). -/
def buildQuestionRows (db : Db) (gid : Nat) (topic : String) (subtopics : List String) :
    List GeneratedQuestion → List Question × Db
  | [] => ([], db)
  | q :: qs =>
      let r1 := get_or_create_topic db topic subtopics
      let r2 := buildQuestionRows r1.2 gid topic subtopics qs
      (mkQuestionRow gid r1.1 q :: r2.1, r2.2)

/-- Embedding of `CreateGameView._fetch_and_create_questions`: ask the AI service for
questions with the given topic, subtopics, `n` and difficulty, then bulk
create one `Question` row per returned question. -/
def fetch_and_create_questions (db : Db) (ai : AI) (gid : Nat) (topic : String)
    (subtopics : List String) (n : Nat) (difficulty : String) : Db :=
  let r := buildQuestionRows db gid topic subtopics
    (ai.generate_questions topic subtopics n difficulty).questions
  { r.2 with questions := r.2.questions ++ r.1 }

/-- Embedding of `CreateGameView.create_game`: create a `Game` row with status
`"waiting"`, fetch the subtopics for the topic from the AI service, and
create the question rows; returns the new game's id. -/
def create_game (db : Db) (ai : AI) (room : Room) (topic : String) (n : Nat)
    (difficulty : String) : Nat × Db :=
  let gid := db.nextGameId
  let game : Game := { id := gid, roomId := room.id, status := "waiting" }
  let db1 : Db := { db with games := db.games ++ [game], nextGameId := gid + 1 }
  let subtopics := (ai.generate_subtopics topic).subtopics
  (gid, fetch_and_create_questions db1 ai gid topic subtopics n difficulty)

/-- A request to `CreateGameView.post`, after DRF authentication
(`userId` is the authenticated user) and with the defaults
`n = 5`, `difficulty = "easy"` already applied by `.get`. -/
structure CreateGameRequest where
  userId : Nat
  roomCode : String
  topic : String
  subtopics : List String
  n : Nat
  difficulty : String
deriving Repr, DecidableEq

/-- Embedding of `CreateGameView.post`, line by line: field presence checks, room
lookup (active rooms only), host check, then the un-awaited
`validate_game` — whose result is always a non-None coroutine, so the
"game already in progress" branch is always taken and evaluating
`game.id` on the coroutine raises `AttributeError`. -/
def createGamePost (db : Db) (ai : AI) (req : CreateGameRequest) : HttpOutcome × Db :=
  if req.topic == "" || req.subtopics.isEmpty then
    (.resp 400 (.errorMsg "`topic` and `subtopics` are required; `n` and `difficulty` are optional."), db)
  else if req.roomCode == "" then
    (.resp 400 (.errorMsg "roomCode is required"), db)
  else
    match validate_room db req.roomCode with
    | .error e => (.pyError e, db)
    | .ok none =>
        (.resp 404 (.errorMsg ("Room with code " ++ req.roomCode ++ " not found or has been closed.")), db)
    | .ok (some room) =>
        if !(req.userId == room.host) then
          (.resp 403 (.errorMsg "Only the host can create the game."), db)
        else
          match validate_game db room with
          | some _g =>
              -- `{"gameId": game.id}` with `game` a coroutine object:
              -- coroutines have no `id` attribute.
              (.pyError "AttributeError", db)
          | none =>
              let r := create_game db ai room req.topic req.n req.difficulty
              (.resp 201 (.gameId r.1), r.2)

/-- Modelled from the spec: `Room.get_waiting_game` lives in
`ai_quiz/models.py`, which is not among the provided sources.  Per the
spec's game lifecycle (`waiting` → `in_progress` → ended) it returns the
room's game whose status is `"waiting"`, raising `ValueError` when the
room has none. -/
def get_waiting_game (db : Db) (room : Room) : Except String Game :=
  match db.games.find? (fun g => g.roomId == room.id && g.status == "waiting") with
  | some g => .ok g
  | none => .error "No waiting game found for the room."

/-- Modelled from the spec: `Game.create_leaderboard` lives in
`ai_quiz/models.py`, which is not among the provided sources.  It creates
the leaderboard record for the game, recorded here as the game id in
`Db.leaderboards`. -/
def create_leaderboard (db : Db) (game : Game) : Db :=
  { db with leaderboards := db.leaderboards ++ [game.id] }

/-- Modelled from the spec: `Room.end_game` lives in `ai_quiz/models.py`,
which is not among the provided sources.  Per the spec ("a host
starts/ends timed game rounds") and the view's comment ("Get the game
instances that are in progress and end them") it moves the room's
in-progress game(s) to the ended state, raising `ValueError` when the room
has no game in progress. -/
def end_game (db : Db) (room : Room) : Except String Db :=
  if db.games.any (fun g => g.roomId == room.id && g.status == "in_progress") then
    .ok { db with games := db.games.map (fun g =>
            if g.roomId == room.id && g.status == "in_progress" then
              { g with status := "ended" }
            else g) }
  else
    .error "No game in progress for this room."

/-- Embedding of `game.save()` after mutating `game.status`: update the row with the
game's primary key. -/
def saveGameStatus (db : Db) (gid : Nat) (st : String) : Db :=
  { db with games := db.games.map (fun g => if g.id == gid then { g with status := st } else g) }

/-- A request to `StartGameView.post`. -/
structure StartGameRequest where
  userId : Nat
  roomCode : String
deriving Repr, DecidableEq

/-- Embedding of `StartGameView.post`: field check, room lookup by code alone, host
check, participant readiness check, then fetch the waiting game, create
its leaderboard, set it in progress and save; a `ValueError` raised in the
`try` block yields a 400 with the error text. -/
def startGamePost (db : Db) (req : StartGameRequest) : HttpOutcome × Db :=
  if req.roomCode == "" then
    (.resp 400 (.errorMsg "roomCode is required"), db)
  else
    match roomGet db req.roomCode with
    | .error e => (.pyError e, db)
    | .ok none => (.resp 404 (.errorMsg "Room not found."), db)
    | .ok (some room) =>
        if !(room.host == req.userId) then
          (.resp 403 (.errorMsg "Only the host can start the game."), db)
        else if db.participants.any (fun p => p.roomId == room.id && !(p.status == "ready")) then
          (.resp 400 (.errorMsg "All participants must be ready to start the game."), db)
        else
          match get_waiting_game db room with
          | .error e => (.resp 400 (.errorMsg e), db)
          | .ok game =>
              let db1 := create_leaderboard db game
              let db2 := saveGameStatus db1 game.id "in_progress"
              (.resp 200 (.gameId game.id), db2)

/-- A request to `EndGameView.post`; `gameId = 0` models a missing or
falsy `gameId` field. -/
structure EndGameRequest where
  userId : Nat
  roomCode : String
  gameId : Nat
deriving Repr, DecidableEq

/-- Embedding of `EndGameView.post`: field checks, room lookup by code alone, host
check, then `room.end_game()`; a `ValueError` yields 400 with the error
text, success yields 200 with `{"status": "game_ended"}`.  The request's
`gameId` is only tested for truthiness. -/
def endGamePost (db : Db) (req : EndGameRequest) : HttpOutcome × Db :=
  if req.roomCode == "" || req.gameId == 0 then
    (.resp 400 (.errorMsg "roomCode and gameId required"), db)
  else
    match roomGet db req.roomCode with
    | .error e => (.pyError e, db)
    | .ok none => (.resp 404 (.errorMsg "Room not found."), db)
    | .ok (some room) =>
        if !(room.host == req.userId) then
          (.resp 403 (.errorMsg "Only the host can end the game."), db)
        else
          match end_game db room with
          | .error e => (.resp 400 (.errorMsg e), db)
          | .ok db' => (.resp 200 .gameEnded, db')

/-! ### Concrete fixtures used by witnesses and counterexamples -/

/-- A concrete instantiation of the external AI service. -/
def testAI : AI :=
  { generate_subtopics := fun _ => { subtopics := ["algebra", "geometry"] },
    generate_questions := fun _ _ _ _ =>
      { questions := [{ subtopic := "algebra", question := "1+1?",
                        answer := "2", options := ["1", "2", "3"] }] } }

/-- An active room with code `"AB12"` hosted by user `1`. -/
def roomA : Room := { id := 1, room_code := "AB12", status := "active", host := 1 }

/-- A game of `roomA` currently in progress. -/
def gameInProg : Game := { id := 7, roomId := 1, status := "in_progress" }

/-- A database holding only `roomA`, with no games. -/
def dbA : Db :=
  { rooms := [roomA], games := [], participants := [], questions := [],
    topics := [], leaderboards := [], nextGameId := 1 }

/-- Database `dbA` with the in-progress game `gameInProg` present. -/
def dbB : Db := { dbA with games := [gameInProg], nextGameId := 8 }

/-! ### Claims -/

/-- C1: for every room, `CreateGameView.validate_game` returns a non-None
value (the `aget` it wraps is never awaited, so `Game.DoesNotExist` is
never raised inside it); consequently every request that passes the field,
room and host checks takes the "game already in progress" branch — where
evaluating `game.id` on the coroutine raises `AttributeError` — so
`create_game` is never called, no `Game` or `Question` row is created, and
status 201 is never returned. -/
theorem c1_validate_game_never_none (db : Db) (ai : AI) (req : CreateGameRequest)
    (room : Room)
    (htopic : req.topic ≠ "") (hsub : req.subtopics ≠ [])
    (hcode : req.roomCode ≠ "")
    (hroom : validate_room db req.roomCode = .ok (some room))
    (hhost : req.userId = room.host) :
    (∀ r : Room, (validate_game db r).isSome = true) ∧
    createGamePost db ai req = (.pyError "AttributeError", db) := by
  refine ⟨fun r => rfl, ?_⟩
  unfold createGamePost
  simp only [beq_iff_eq, htopic, List.isEmpty_eq_true, hsub, hcode, or_self,
    if_false, Bool.or_eq_true, or_false, if_neg, not_false_eq_true]
  rw [hroom]
  simp [validate_game, hhost]

/-- Request used to witness C1: a well-formed create request by the host. -/
def reqC1 : CreateGameRequest :=
  { userId := 1, roomCode := "AB12", topic := "math", subtopics := ["x"],
    n := 5, difficulty := "easy" }

/-- Witness for C1 at a concrete database and request. -/
theorem c1_witness :
    (∀ r : Room, (validate_game dbA r).isSome = true) ∧
    createGamePost dbA testAI reqC1 = (.pyError "AttributeError", dbA) :=
  c1_validate_game_never_none dbA testAI reqC1 roomA (by decide) (by decide)
    (by decide) rfl rfl

/-- Request used for C6: a well-formed create request by the host of
`roomA`, whose room already has the in-progress game `gameInProg`. -/
def reqC6 : CreateGameRequest :=
  { userId := 1, roomCode := "AB12", topic := "math", subtopics := ["x"],
    n := 5, difficulty := "easy" }

/-- C6 (code bug): the room of `dbB` has exactly one game with status
`"in_progress"` (id 7), yet `CreateGameView.post` does not respond
200 OK with that game's id: because `validate_game` never awaits its
`aget`, the branch's `game.id` is evaluated on a coroutine object and
raises an uncaught `AttributeError`.  The view's own
`except Game.DoesNotExist` handler and 200-with-gameId branch show the
claim is the intent; the missing `await` is the slip. -/
theorem c6_code_bug_eval :
    gameAgetInProgress dbB roomA = .ok (some gameInProg) ∧
    createGamePost dbB testAI reqC6 = (.pyError "AttributeError", dbB) :=
  ⟨rfl, rfl⟩

/-- Request used for the C2 counterexample: user 2 (not the host of the
room that `"AB12"` identifies) sends a create request with an empty
`topic`. -/
def reqC2bad : CreateGameRequest :=
  { userId := 2, roomCode := "AB12", topic := "", subtopics := ["x"],
    n := 5, difficulty := "easy" }

/-- C2 counterexample: the requesting user 2 is not the host of the room
identified by roomCode `"AB12"` (an existing active room), yet
`CreateGameView` returns 400 — the field-presence check for `topic`
precedes the host check — not 403 as the claim states. -/
theorem c2_counterexample :
    validate_room dbA reqC2bad.roomCode = .ok (some roomA) ∧
    reqC2bad.userId ≠ roomA.host ∧
    createGamePost dbA testAI reqC2bad =
      (.resp 400 (.errorMsg "`topic` and `subtopics` are required; `n` and `difficulty` are optional."), dbA) :=
  ⟨rfl, by decide, rfl⟩

/-- C2 (amended): for every request that passes the view's field-presence
checks and whose roomCode resolves to a room (an active room for
`CreateGameView`), if the authenticated requesting user is not the room's
host, the view returns 403 Forbidden with the view's host-only message and
no game or room state is changed. -/
theorem c2_host_only :
    (∀ (db : Db) (ai : AI) (req : CreateGameRequest) (room : Room),
      req.topic ≠ "" → req.subtopics ≠ [] → req.roomCode ≠ "" →
      validate_room db req.roomCode = .ok (some room) →
      req.userId ≠ room.host →
      createGamePost db ai req =
        (.resp 403 (.errorMsg "Only the host can create the game."), db)) ∧
    (∀ (db : Db) (req : StartGameRequest) (room : Room),
      req.roomCode ≠ "" →
      roomGet db req.roomCode = .ok (some room) →
      req.userId ≠ room.host →
      startGamePost db req =
        (.resp 403 (.errorMsg "Only the host can start the game."), db)) ∧
    (∀ (db : Db) (req : EndGameRequest) (room : Room),
      req.roomCode ≠ "" → req.gameId ≠ 0 →
      roomGet db req.roomCode = .ok (some room) →
      req.userId ≠ room.host →
      endGamePost db req =
        (.resp 403 (.errorMsg "Only the host can end the game."), db)) := by
  refine ⟨?_, ?_, ?_⟩
  · intro db ai req room htopic hsub hcode hroom hne
    unfold createGamePost
    simp only [beq_iff_eq, htopic, List.isEmpty_eq_true, hsub, hcode, or_self,
      Bool.or_eq_true, or_false, if_neg, not_false_eq_true]
    rw [hroom]
    simp [hne]
  · intro db req room hcode hroom hne
    unfold startGamePost
    rw [if_neg (by simpa using hcode), hroom]
    have hne' : room.host ≠ req.userId := fun h => hne h.symm
    simp [hne']
  · intro db req room hcode hgid hroom hne
    unfold endGamePost
    rw [if_neg (by simpa using And.intro hcode hgid), hroom]
    have hne' : room.host ≠ req.userId := fun h => hne h.symm
    simp [hne']

/-- Create request by the non-host user 2, with all fields present. -/
def reqC2c : CreateGameRequest :=
  { userId := 2, roomCode := "AB12", topic := "math", subtopics := ["x"],
    n := 5, difficulty := "easy" }

/-- Start request by the non-host user 2. -/
def reqC2s : StartGameRequest := { userId := 2, roomCode := "AB12" }

/-- End request by the non-host user 2. -/
def reqC2e : EndGameRequest := { userId := 2, roomCode := "AB12", gameId := 7 }

/-- Witness for the amended C2 at a concrete database and requests. -/
theorem c2_host_only_witness :
    createGamePost dbA testAI reqC2c =
      (.resp 403 (.errorMsg "Only the host can create the game."), dbA) ∧
    startGamePost dbA reqC2s =
      (.resp 403 (.errorMsg "Only the host can start the game."), dbA) ∧
    endGamePost dbA reqC2e =
      (.resp 403 (.errorMsg "Only the host can end the game."), dbA) :=
  ⟨c2_host_only.1 dbA testAI reqC2c roomA (by decide) (by decide) (by decide)
      rfl (by decide),
   c2_host_only.2.1 dbA reqC2s roomA (by decide) rfl (by decide),
   c2_host_only.2.2 dbA reqC2e roomA (by decide) (by decide) rfl (by decide)⟩

/-- C3: for every StartGame request by the host of an existing room, if
some participant of the room has a status other than `"ready"`, the view
returns 400 with the error "All participants must be ready to start the
game." and the database — in particular every game's status — is
unchanged. -/
theorem c3_readiness_gates_start (db : Db) (req : StartGameRequest) (room : Room)
    (hcode : req.roomCode ≠ "")
    (hroom : roomGet db req.roomCode = .ok (some room))
    (hhost : req.userId = room.host)
    (p : Participant) (hp : p ∈ db.participants) (hpr : p.roomId = room.id)
    (hps : p.status ≠ "ready") :
    startGamePost db req =
      (.resp 400 (.errorMsg "All participants must be ready to start the game."), db) := by
  unfold startGamePost
  rw [if_neg (by simpa using hcode), hroom]
  have hany : db.participants.any
      (fun q => q.roomId == room.id && !(q.status == "ready")) = true := by
    refine List.any_eq_true.mpr ⟨p, hp, ?_⟩
    simp [hpr, hps]
  simp [hhost, hany]

/-- A participant of `roomA` who is not ready. -/
def idlePlayer : Participant := { roomId := 1, status := "joined" }

/-- Database `dbA` with one not-ready participant of `roomA`. -/
def dbC3 : Db := { dbA with participants := [idlePlayer] }

/-- Start request by the host, user 1. -/
def reqC3 : StartGameRequest := { userId := 1, roomCode := "AB12" }

/-- Witness for C3 at a concrete database and request. -/
theorem c3_witness :
    startGamePost dbC3 reqC3 =
      (.resp 400 (.errorMsg "All participants must be ready to start the game."), dbC3) :=
  c3_readiness_gates_start dbC3 reqC3 roomA (by decide) rfl rfl idlePlayer
    (by decide) rfl (by decide)

/-- C4: for every StartGame request by the host of an existing room whose
participants are all ready, the view obtains the room's waiting game via
`get_waiting_game`, creates its leaderboard, moves that game's status from
`"waiting"` to `"in_progress"`, saves it, and returns 200 with the game's
id; if a `ValueError` is raised in this block, it returns 400 with the
error message and the transition does not happen (the database is
unchanged). -/
theorem c4_start_game_transition (db : Db) (req : StartGameRequest) (room : Room)
    (hcode : req.roomCode ≠ "")
    (hroom : roomGet db req.roomCode = .ok (some room))
    (hhost : req.userId = room.host)
    (hready : ∀ p ∈ db.participants, p.roomId = room.id → p.status = "ready") :
    (∀ g : Game, get_waiting_game db room = .ok g →
      g.status = "waiting" ∧
      startGamePost db req =
        (.resp 200 (.gameId g.id),
         { db with leaderboards := db.leaderboards ++ [g.id],
                   games := db.games.map
                     (fun x => if x.id == g.id then { x with status := "in_progress" } else x) })) ∧
    (∀ e : String, get_waiting_game db room = .error e →
      startGamePost db req = (.resp 400 (.errorMsg e), db)) := by
  have hnone : db.participants.any
      (fun q => q.roomId == room.id && !(q.status == "ready")) = false := by
    refine List.any_eq_false.mpr fun p hp => ?_
    rw [Bool.and_eq_true, beq_iff_eq, Bool.not_eq_true', beq_eq_false_iff_ne]
    rintro ⟨hpr, hps⟩
    exact hps (hready p hp hpr)
  constructor
  · intro g hg
    have hstatus : g.status = "waiting" := by
      unfold get_waiting_game at hg
      cases hfind : db.games.find? (fun x => x.roomId == room.id && x.status == "waiting") with
      | none => rw [hfind] at hg; exact absurd hg (by simp)
      | some g' =>
          rw [hfind] at hg
          obtain rfl : g' = g := by simpa using hg
          have hpred := List.find?_some hfind
          simp only [Bool.and_eq_true, beq_iff_eq] at hpred
          exact hpred.2
    refine ⟨hstatus, ?_⟩
    unfold startGamePost
    rw [if_neg (by simpa using hcode), hroom, hhost]
    simp [hnone, hg, create_leaderboard, saveGameStatus]
  · intro e he
    unfold startGamePost
    rw [if_neg (by simpa using hcode), hroom, hhost]
    simp [hnone, he]

/-- A game of `roomA` in the waiting state. -/
def gameWaiting : Game := { id := 3, roomId := 1, status := "waiting" }

/-- A participant of `roomA` who is ready. -/
def readyPlayer : Participant := { roomId := 1, status := "ready" }

/-- Database with `roomA`, the waiting game and one ready participant. -/
def dbC4 : Db :=
  { dbA with games := [gameWaiting], participants := [readyPlayer], nextGameId := 4 }

/-- Start request for C4, sent by the host. -/
def reqC4 : StartGameRequest := { userId := 1, roomCode := "AB12" }

/-- Witness for C4 at a concrete database and request. -/
theorem c4_witness :
    gameWaiting.status = "waiting" ∧
    startGamePost dbC4 reqC4 =
      (.resp 200 (.gameId gameWaiting.id),
       { dbC4 with leaderboards := dbC4.leaderboards ++ [gameWaiting.id],
                   games := dbC4.games.map
                     (fun x => if x.id == gameWaiting.id then { x with status := "in_progress" } else x) }) :=
  (c4_start_game_transition dbC4 reqC4 roomA (by decide) rfl rfl (by decide)).1
    gameWaiting rfl

/-- Auxiliary: `_get_or_create_topic` hands back the topic's name and
touches only the `topics` table. -/
theorem get_or_create_topic_spec (db : Db) (name : String) (subt : List String) :
    (get_or_create_topic db name subt).1 = name ∧
    (get_or_create_topic db name subt).2.questions = db.questions ∧
    (get_or_create_topic db name subt).2.games = db.games := by
  unfold get_or_create_topic
  cases db.topics.find? (fun t => t.name == name) <;> simp

/-- Auxiliary: the bulk-create list comprehension builds exactly one
`Question` row per generated question, all carrying the topic's name, and
its topic bookkeeping touches neither `questions` nor `games`. -/
theorem buildQuestionRows_spec (gid : Nat) (topic : String) (subt : List String)
    (qs : List GeneratedQuestion) : ∀ db : Db,
    (buildQuestionRows db gid topic subt qs).1 = qs.map (mkQuestionRow gid topic) ∧
    (buildQuestionRows db gid topic subt qs).2.questions = db.questions ∧
    (buildQuestionRows db gid topic subt qs).2.games = db.games := by
  induction qs with
  | nil => intro db; simp [buildQuestionRows]
  | cons q qs ih =>
      intro db
      have h1 := get_or_create_topic_spec db topic subt
      have h2 := ih (get_or_create_topic db topic subt).2
      unfold buildQuestionRows
      refine ⟨?_, ?_, ?_⟩
      · simp only [List.map_cons, h2.1, h1.1]
      · rw [h2.2.1, h1.2.1]
      · rw [h2.2.2, h1.2.2]

/-- C5: when `create_game` runs for a room, the game row is created with
status `"waiting"`, and the questions stored for the newly created game
are exactly those returned by the external AI service: `generate_questions`
is called with the request's topic, the subtopic list returned by
`generate_subtopics(topic)`, `n` and the difficulty, and one `Question`
row linked to the new game is created per returned question, carrying its
subtopic, text, correct answer and options (`mkQuestionRow`). -/
theorem c5_questions_from_ai (db : Db) (ai : AI) (room : Room) (topic : String)
    (n : Nat) (difficulty : String)
    (hfresh : ∀ q ∈ db.questions, q.gameId ≠ db.nextGameId) :
    (create_game db ai room topic n difficulty).1 = db.nextGameId ∧
    (create_game db ai room topic n difficulty).2.games =
      db.games ++ [{ id := db.nextGameId, roomId := room.id, status := "waiting" }] ∧
    (create_game db ai room topic n difficulty).2.questions =
      db.questions ++
        (ai.generate_questions topic (ai.generate_subtopics topic).subtopics n
          difficulty).questions.map (mkQuestionRow db.nextGameId topic) ∧
    (create_game db ai room topic n difficulty).2.questions.filter
        (fun q => q.gameId == db.nextGameId) =
      (ai.generate_questions topic (ai.generate_subtopics topic).subtopics n
        difficulty).questions.map (mkQuestionRow db.nextGameId topic) := by
  have hb := buildQuestionRows_spec db.nextGameId topic
    (ai.generate_subtopics topic).subtopics
    (ai.generate_questions topic (ai.generate_subtopics topic).subtopics n
      difficulty).questions
    { db with
        games := db.games ++ [{ id := db.nextGameId, roomId := room.id, status := "waiting" }],
        nextGameId := db.nextGameId + 1 }
  have hq : (create_game db ai room topic n difficulty).2.questions =
      db.questions ++
        (ai.generate_questions topic (ai.generate_subtopics topic).subtopics n
          difficulty).questions.map (mkQuestionRow db.nextGameId topic) := by
    show ((buildQuestionRows _ _ _ _ _).2.questions ++ (buildQuestionRows _ _ _ _ _).1) = _
    rw [hb.1, hb.2.1]
  refine ⟨rfl, ?_, hq, ?_⟩
  · show (buildQuestionRows _ _ _ _ _).2.games = _
    rw [hb.2.2]
  · rw [hq, List.filter_append]
    have hold : db.questions.filter (fun q => q.gameId == db.nextGameId) = [] :=
      List.filter_eq_nil_iff.mpr fun q hq' => by simp [hfresh q hq']
    have hnew : ((ai.generate_questions topic (ai.generate_subtopics topic).subtopics n
        difficulty).questions.map (mkQuestionRow db.nextGameId topic)).filter
          (fun q => q.gameId == db.nextGameId) =
        (ai.generate_questions topic (ai.generate_subtopics topic).subtopics n
          difficulty).questions.map (mkQuestionRow db.nextGameId topic) := by
      refine List.filter_eq_self.mpr fun q hq' => ?_
      obtain ⟨a, _, rfl⟩ := List.mem_map.mp hq'
      simp [mkQuestionRow]
    rw [hold, hnew, List.nil_append]

/-- Witness for C5 at a concrete database and AI service. -/
theorem c5_witness :
    (create_game dbA testAI roomA "math" 1 "easy").1 = dbA.nextGameId ∧
    (create_game dbA testAI roomA "math" 1 "easy").2.games =
      dbA.games ++ [{ id := dbA.nextGameId, roomId := roomA.id, status := "waiting" }] ∧
    (create_game dbA testAI roomA "math" 1 "easy").2.questions =
      dbA.questions ++
        (testAI.generate_questions "math" (testAI.generate_subtopics "math").subtopics 1
          "easy").questions.map (mkQuestionRow dbA.nextGameId "math") ∧
    (create_game dbA testAI roomA "math" 1 "easy").2.questions.filter
        (fun q => q.gameId == dbA.nextGameId) =
      (testAI.generate_questions "math" (testAI.generate_subtopics "math").subtopics 1
        "easy").questions.map (mkQuestionRow dbA.nextGameId "math") :=
  c5_questions_from_ai dbA testAI roomA "math" 1 "easy" (by simp [dbA])

/-- C7: every game endpoint resolves the room solely by its short roomCode
and returns 404 when no matching room exists; `CreateGameView`
additionally requires the room's status to be `"active"` (otherwise
reporting it "not found or has been closed"), while `StartGameView` and
`EndGameView` match a room in any status (a resolved room, whatever its
status, never yields their 404). -/
theorem c7_room_resolution :
    (∀ (db : Db) (ai : AI) (req : CreateGameRequest),
      req.topic ≠ "" → req.subtopics ≠ [] → req.roomCode ≠ "" →
      (∀ r ∈ db.rooms, ¬(r.room_code = req.roomCode ∧ r.status = "active")) →
      createGamePost db ai req =
        (.resp 404 (.errorMsg ("Room with code " ++ req.roomCode ++ " not found or has been closed.")), db)) ∧
    (∀ (db : Db) (req : StartGameRequest),
      req.roomCode ≠ "" →
      (∀ r ∈ db.rooms, r.room_code ≠ req.roomCode) →
      startGamePost db req = (.resp 404 (.errorMsg "Room not found."), db)) ∧
    (∀ (db : Db) (req : EndGameRequest),
      req.roomCode ≠ "" → req.gameId ≠ 0 →
      (∀ r ∈ db.rooms, r.room_code ≠ req.roomCode) →
      endGamePost db req = (.resp 404 (.errorMsg "Room not found."), db)) ∧
    (∀ (db : Db) (req : StartGameRequest) (room : Room),
      req.roomCode ≠ "" →
      roomGet db req.roomCode = .ok (some room) →
      (startGamePost db req).1 ≠ .resp 404 (.errorMsg "Room not found.")) ∧
    (∀ (db : Db) (req : EndGameRequest) (room : Room),
      req.roomCode ≠ "" → req.gameId ≠ 0 →
      roomGet db req.roomCode = .ok (some room) →
      (endGamePost db req).1 ≠ .resp 404 (.errorMsg "Room not found.")) := by
  refine ⟨?_, ?_, ?_, ?_, ?_⟩
  · intro db ai req htopic hsub hcode habs
    have hfilt : db.rooms.filter
        (fun r => r.room_code == req.roomCode && r.status == "active") = [] := by
      refine List.filter_eq_nil_iff.mpr fun r hr => ?_
      simp only [Bool.and_eq_true, beq_iff_eq]
      exact habs r hr
    have hvr : validate_room db req.roomCode = .ok none := by
      unfold validate_room roomAgetActive
      rw [hfilt]
    unfold createGamePost
    simp only [beq_iff_eq, htopic, List.isEmpty_eq_true, hsub, hcode, or_self,
      Bool.or_eq_true, or_false, if_neg, not_false_eq_true]
    rw [hvr]
  · intro db req hcode habs
    have hfilt : db.rooms.filter (fun r => r.room_code == req.roomCode) = [] := by
      refine List.filter_eq_nil_iff.mpr fun r hr => ?_
      simp only [beq_iff_eq]
      exact habs r hr
    have hvr : roomGet db req.roomCode = .ok none := by
      unfold roomGet
      rw [hfilt]
    unfold startGamePost
    rw [if_neg (by simpa using hcode), hvr]
  · intro db req hcode hgid habs
    have hfilt : db.rooms.filter (fun r => r.room_code == req.roomCode) = [] := by
      refine List.filter_eq_nil_iff.mpr fun r hr => ?_
      simp only [beq_iff_eq]
      exact habs r hr
    have hvr : roomGet db req.roomCode = .ok none := by
      unfold roomGet
      rw [hfilt]
    unfold endGamePost
    rw [if_neg (by simpa using And.intro hcode hgid), hvr]
  · intro db req room hcode hroom
    unfold startGamePost
    rw [if_neg (by simpa using hcode), hroom]
    dsimp only
    split
    · simp
    · split
      · simp
      · split <;> simp
  · intro db req room hcode hgid hroom
    unfold endGamePost
    rw [if_neg (by simpa using And.intro hcode hgid), hroom]
    dsimp only
    split
    · simp
    · split <;> simp

/-- A room whose status is `"closed"` (not `"active"`). -/
def roomClosed : Room := { id := 2, room_code := "ZZ99", status := "closed", host := 1 }

/-- Database holding only the closed room. -/
def dbC7 : Db :=
  { rooms := [roomClosed], games := [], participants := [], questions := [],
    topics := [], leaderboards := [], nextGameId := 1 }

/-- Create request aimed at the closed room's code. -/
def reqC7c : CreateGameRequest :=
  { userId := 1, roomCode := "ZZ99", topic := "math", subtopics := ["x"],
    n := 5, difficulty := "easy" }

/-- Start request with a room code no room has. -/
def reqC7sMissing : StartGameRequest := { userId := 1, roomCode := "QQ11" }

/-- End request with a room code no room has. -/
def reqC7eMissing : EndGameRequest := { userId := 1, roomCode := "QQ11", gameId := 1 }

/-- Start request aimed at the closed room's code. -/
def reqC7s : StartGameRequest := { userId := 1, roomCode := "ZZ99" }

/-- End request aimed at the closed room's code. -/
def reqC7e : EndGameRequest := { userId := 1, roomCode := "ZZ99", gameId := 1 }

/-- Witness for C7: the create endpoint 404s on the existing-but-closed
room, the start/end endpoints 404 only when no room carries the code and
do not 404 on the closed room. -/
theorem c7_witness :
    createGamePost dbC7 testAI reqC7c =
      (.resp 404 (.errorMsg "Room with code ZZ99 not found or has been closed."), dbC7) ∧
    startGamePost dbC7 reqC7sMissing = (.resp 404 (.errorMsg "Room not found."), dbC7) ∧
    endGamePost dbC7 reqC7eMissing = (.resp 404 (.errorMsg "Room not found."), dbC7) ∧
    (startGamePost dbC7 reqC7s).1 ≠ .resp 404 (.errorMsg "Room not found.") ∧
    (endGamePost dbC7 reqC7e).1 ≠ .resp 404 (.errorMsg "Room not found.") :=
  ⟨c7_room_resolution.1 dbC7 testAI reqC7c (by decide) (by decide) (by decide) (by decide),
   c7_room_resolution.2.1 dbC7 reqC7sMissing (by decide) (by decide),
   c7_room_resolution.2.2.1 dbC7 reqC7eMissing (by decide) (by decide) (by decide),
   c7_room_resolution.2.2.2.1 dbC7 reqC7s roomClosed (by decide) rfl,
   c7_room_resolution.2.2.2.2 dbC7 reqC7e roomClosed (by decide) (by decide) rfl⟩

/-- C8: for every EndGame request by the host of an existing room with
both roomCode and gameId present, the view calls `room.end_game()`; if
that raises `ValueError` the response is 400 with the error text and no
other change is made (the database is unchanged), otherwise the response
is 200 with body `{"status": "game_ended"}` and the state produced by
`end_game`. -/
theorem c8_end_game_handling (db : Db) (req : EndGameRequest) (room : Room)
    (hcode : req.roomCode ≠ "") (hgid : req.gameId ≠ 0)
    (hroom : roomGet db req.roomCode = .ok (some room))
    (hhost : req.userId = room.host) :
    (∀ e : String, end_game db room = .error e →
      endGamePost db req = (.resp 400 (.errorMsg e), db)) ∧
    (∀ db' : Db, end_game db room = .ok db' →
      endGamePost db req = (.resp 200 .gameEnded, db')) := by
  constructor
  · intro e he
    unfold endGamePost
    rw [if_neg (by simpa using And.intro hcode hgid), hroom, hhost]
    simp [he]
  · intro db' h
    unfold endGamePost
    rw [if_neg (by simpa using And.intro hcode hgid), hroom, hhost]
    simp [h]

/-- End request by the host with both fields present. -/
def reqC8 : EndGameRequest := { userId := 1, roomCode := "AB12", gameId := 7 }

/-- Database `dbB` after its in-progress game has been ended. -/
def dbEnded : Db := { dbB with games := [{ id := 7, roomId := 1, status := "ended" }] }

/-- Witness for C8 at concrete databases: the success case on `dbB`
(a game in progress) and the `ValueError` case on `dbA` (no game). -/
theorem c8_witness :
    endGamePost dbB reqC8 = (.resp 200 .gameEnded, dbEnded) ∧
    endGamePost dbA reqC8 =
      (.resp 400 (.errorMsg "No game in progress for this room."), dbA) :=
  ⟨(c8_end_game_handling dbB reqC8 roomA (by decide) (by decide) rfl rfl).2 dbEnded rfl,
   (c8_end_game_handling dbA reqC8 roomA (by decide) (by decide) rfl rfl).1
     "No game in progress for this room." rfl⟩

/-- C9: the subtopics field of a CreateGame request does not influence the
outcome beyond presence: any two CreateGame requests identical except for
the value of a non-empty subtopics list make `CreateGameView` behave
identically (same response, same database). -/
theorem c9_subtopics_value_irrelevant (db : Db) (ai : AI) (req : CreateGameRequest)
    (s1 s2 : List String) (h1 : s1 ≠ []) (h2 : s2 ≠ []) :
    createGamePost db ai { req with subtopics := s1 } =
    createGamePost db ai { req with subtopics := s2 } := by
  obtain ⟨a1, t1, rfl⟩ : ∃ a t, s1 = a :: t := by
    cases s1 with
    | nil => exact absurd rfl h1
    | cons a t => exact ⟨a, t, rfl⟩
  obtain ⟨a2, t2, rfl⟩ : ∃ a t, s2 = a :: t := by
    cases s2 with
    | nil => exact absurd rfl h2
    | cons a t => exact ⟨a, t, rfl⟩
  rfl

/-- Base create request whose subtopics the C9 witness varies. -/
def reqC9 : CreateGameRequest :=
  { userId := 1, roomCode := "AB12", topic := "math", subtopics := [],
    n := 5, difficulty := "easy" }

/-- Witness for C9 at two concrete non-empty subtopic lists. -/
theorem c9_witness :
    createGamePost dbA testAI { reqC9 with subtopics := ["a"] } =
    createGamePost dbA testAI { reqC9 with subtopics := ["b", "c"] } :=
  c9_subtopics_value_irrelevant dbA testAI reqC9 ["a"] ["b", "c"]
    (by decide) (by decide)

/-- C10: the gameId field of an EndGame request does not influence the
outcome beyond presence: any two EndGame requests identical except for
the value of a truthy gameId produce the same response and the same
state change. -/
theorem c10_gameId_value_irrelevant (db : Db) (req : EndGameRequest)
    (g1 g2 : Nat) (h1 : g1 ≠ 0) (h2 : g2 ≠ 0) :
    endGamePost db { req with gameId := g1 } =
    endGamePost db { req with gameId := g2 } := by
  cases g1 with
  | zero => exact absurd rfl h1
  | succ m1 =>
      cases g2 with
      | zero => exact absurd rfl h2
      | succ m2 => rfl

/-- Base end request whose gameId the C10 witness varies. -/
def reqC10 : EndGameRequest := { userId := 1, roomCode := "AB12", gameId := 0 }

/-- Witness for C10 at two concrete truthy gameIds (one of them not even
an existing game's id). -/
theorem c10_witness :
    endGamePost dbB { reqC10 with gameId := 7 } =
    endGamePost dbB { reqC10 with gameId := 999 } :=
  c10_gameId_value_irrelevant dbB reqC10 7 999 (by decide) (by decide)

end Quizio
